import Mathlib

/-!
Verification of the data-migration coordinator against its specification.

The definitions below are a shallow embedding of the repository's Python
backend (`backend/storage_checker.py`, `backend/migration_engine.py`,
`backend/app.py`, `backend/config.py`).  Machine reals (Python floats) are
modelled as rationals; Python dicts holding job or report fields become
structures; the success path of a storage query is modelled by passing the
query result (`DiskUsage`) as an argument.
-/

namespace DataMigration

/-! ### Storage checker (`backend/storage_checker.py`) -/

/-- Result of a disk-usage query, as returned by `psutil.disk_usage` or one of
the simulated collaborators: `total`, `used`, `free` in bytes and `percent`
in the range 0–100. -/
structure DiskUsage where
  total : ℚ
  used : ℚ
  free : ℚ
  percent : ℚ
deriving DecidableEq, Repr

/-- The status values a capacity report can carry. -/
inductive CapStatus where
  | healthy
  | marginal
  | insufficient
  | warning
  | critical
  | error
deriving DecidableEq, Repr

/-- The dictionary returned by `StorageChecker.check_capacity` on the success
path (the human-readable string fields are pure formatting and are omitted). -/
structure CapacityReport where
  status : CapStatus
  total_bytes : ℚ
  used_bytes : ℚ
  free_bytes : ℚ
  percent_used : ℚ
  fits : Bool
  fits_with_margin : Bool
  required_bytes : ℚ
  available_after_migration : ℚ
deriving DecidableEq, Repr

/-- `self.threshold_warning = 0.85` in `StorageChecker.__init__`. -/
def threshold_warning : ℚ := 0.85

/-- `self.threshold_critical = 0.95` in `StorageChecker.__init__`. -/
def threshold_critical : ℚ := 0.95

/-- `StorageChecker.check_capacity`, success path: the disk-usage query result
is given as the argument `usage`. -/
def check_capacity (usage : DiskUsage) (required_size : ℚ) : CapacityReport :=
  let total := usage.total
  let used := usage.used
  let free := usage.free
  let percent_used := usage.percent / 100
  let fits : Bool := decide (free ≥ required_size)
  let safety_margin := total * 0.1
  let fits_with_margin : Bool := decide (free - required_size ≥ safety_margin)
  let status :=
    if percent_used ≥ threshold_critical then CapStatus.critical
    else if percent_used ≥ threshold_warning then CapStatus.warning
    else if fits = false then CapStatus.insufficient
    else if fits_with_margin = false then CapStatus.marginal
    else CapStatus.healthy
  { status := status
    total_bytes := total
    used_bytes := used
    free_bytes := free
    percent_used := percent_used
    fits := fits
    fits_with_margin := fits_with_margin
    required_bytes := required_size
    available_after_migration := free - required_size }

/-- The result of `StorageChecker.compare_storage` (string fields omitted). -/
structure StorageComparison where
  source : CapacityReport
  destination : CapacityReport
  can_migrate : Bool
  can_migrate_safely : Bool
  size_difference : ℚ
deriving DecidableEq, Repr

/-- `StorageChecker.compare_storage`: the source is checked with required size
0, the destination with `data_size`. -/
def compare_storage (source_usage dest_usage : DiskUsage) (data_size : ℚ) :
    StorageComparison :=
  let source_check := check_capacity source_usage 0
  let dest_check := check_capacity dest_usage data_size
  { source := source_check
    destination := dest_check
    can_migrate := dest_check.fits
    can_migrate_safely := dest_check.fits_with_margin
    size_difference := dest_check.free_bytes - data_size }

/-- Modelled from the spec: the status decision of §4.1 as written there, in
priority order (`critical` at 0.95, `warning` at 0.85, `insufficient` when
free space does not cover the request, `marginal` when the 10% margin is
missed, else `healthy`).  Used to compare the code's decision against the
spec's words. -/
def statusSpec (percent_used free_bytes required_bytes total_bytes : ℚ) : CapStatus :=
  if percent_used ≥ 0.95 then CapStatus.critical
  else if percent_used ≥ 0.85 then CapStatus.warning
  else if free_bytes < required_bytes then CapStatus.insufficient
  else if free_bytes - required_bytes < total_bytes * 0.10 then CapStatus.marginal
  else CapStatus.healthy

/-- Severity rank used by the spec's monotonicity property:
`healthy < marginal < insufficient < warning < critical`. -/
def severity : CapStatus → ℕ
  | CapStatus.healthy => 0
  | CapStatus.marginal => 1
  | CapStatus.insufficient => 2
  | CapStatus.warning => 3
  | CapStatus.critical => 4
  | CapStatus.error => 5

/-- Disk usage at utilisation fraction `p` of a device of `t` total bytes:
`used = p * t`, `free = t - p * t`, reported percent `p * 100`. -/
def usageAt (t p : ℚ) : DiskUsage :=
  { total := t, used := p * t, free := t - p * t, percent := p * 100 }

/-! ### Migration engine — compatibility (`backend/migration_engine.py`) -/

/-- One side of a migration, as the JSON dictionary the engine receives:
`type`, `os` and `protocol` may be absent (`none`). -/
structure Endpoint where
  type : Option String
  os : Option String
  protocol : Option String
  encryption : Bool
  supports_encryption : Bool
deriving DecidableEq, Repr

/-- `self.supported_formats['databases']` in `MigrationEngine.__init__`. -/
def databases : List String :=
  ["mysql", "postgresql", "mongodb", "sqlite", "oracle", "sqlserver"]

/-- `self.supported_formats['devices']` in `MigrationEngine.__init__`. -/
def devices : List String :=
  ["phone", "computer", "server", "nas", "cloud"]

/-- Membership of a possibly-absent type in `devices + databases` (Python's
`x in list`; `None` is in neither list). -/
def supported_type (t : Option String) : Bool :=
  match t with
  | some s => decide (s ∈ devices ++ databases)
  | none => false

/-- Membership of a possibly-absent type in the database list. -/
def is_database (t : Option String) : Bool :=
  match t with
  | some s => decide (s ∈ databases)
  | none => false

/-- Python truthiness of an optional string (`None` and `""` are falsy). -/
def truthyStr : Option String → Bool
  | none => false
  | some s => !s.isEmpty

/-- The score computation of `MigrationEngine.check_compatibility`: start at
100, deduct 30 per unsupported endpoint type, 20 for a cross-database-family
transfer, 10 for differing declared operating systems, 15 for differing
protocols (default protocol `"file"`). -/
def compatibility_score (source destination : Endpoint) : ℤ :=
  let s0 : ℤ := 100
  let s1 := if supported_type source.type = false then s0 - 30 else s0
  let s2 := if supported_type destination.type = false then s1 - 30 else s1
  let s3 :=
    if is_database source.type && is_database destination.type then
      (if source.type ≠ destination.type then s2 - 20 else s2)
    else s2
  let s4 :=
    if truthyStr source.os && truthyStr destination.os then
      (if source.os ≠ destination.os then s3 - 10 else s3)
    else s3
  if source.protocol.getD "file" ≠ destination.protocol.getD "file" then s4 - 15 else s4

/-- `MigrationEngine._get_compatibility_issues`. -/
def get_compatibility_issues (source destination : Endpoint) (score : ℤ) : List String :=
  (if score < 100 then ["Partial compatibility detected"] else []) ++
  (if source.type = some "phone" ∧ destination.type = some "database" then
    ["Direct phone to database migration may require intermediate storage"] else []) ++
  (if source.encryption && !destination.supports_encryption then
    ["Source is encrypted but destination may not support encryption"] else [])

/-- `MigrationEngine._get_compatibility_recommendations`. -/
def get_compatibility_recommendations (source destination : Endpoint) : List String :=
  (if source.type = some "database" ∧ destination.type = some "database" then
    ["Consider using database-native export/import tools for better performance",
     "Verify data types are compatible between database systems"]
   else if (source.type = some "phone" ∨ source.type = some "computer") ∧
       destination.type = some "database" then
    ["Convert files to database-compatible format before migration",
     "Consider using CSV or JSON as intermediate format"]
   else []) ++
  ["Perform a test migration with a small dataset first",
   "Verify network connectivity and bandwidth"]

/-- The dictionary returned by `MigrationEngine.check_compatibility`. -/
structure CompatibilityReport where
  compatible : Bool
  score : ℤ
  issues : List String
  recommendations : List String
deriving DecidableEq, Repr

/-- `MigrationEngine.check_compatibility`. -/
def check_compatibility (source destination : Endpoint) : CompatibilityReport :=
  let score := compatibility_score source destination
  { compatible := decide (score ≥ 70)
    score := score
    issues := get_compatibility_issues source destination score
    recommendations := get_compatibility_recommendations source destination }

/-! ### Migration engine — file analysis and batching -/

/-- One manifest entry (`{'filename': ..., 'size': ...}`). -/
structure FileInfo where
  filename : String
  size : ℕ
deriving DecidableEq, Repr

/-- The lower-cased extension after the last dot, when the name contains a
dot (`filename.split('.')[-1].lower()`), else `none`. -/
def extOf (filename : String) : Option String :=
  if filename.contains '.' then some ((filename.splitOn ".").getLastD "").toLower
  else none

/-- Accumulated `total_size` over the manifest. -/
def manifest_total_size (files : List FileInfo) : ℕ :=
  (files.map FileInfo.size).sum

/-- One step of the `file_types[ext] = file_types.get(ext, 0) + size`
accumulation, on the dictionary viewed as a function with default 0. -/
def add_file_type (m : String → ℕ) (f : FileInfo) : String → ℕ :=
  match extOf f.filename with
  | none => m
  | some e => fun x => if x = e then m x + f.size else m x

/-- The `file_types` dictionary built by `MigrationEngine.analyze_files`,
viewed as a function with default 0. -/
def file_types (files : List FileInfo) : String → ℕ :=
  files.foldl add_file_type (fun _ => 0)

/-- The key set of the `file_types` dictionary: the extensions occurring in
the manifest. -/
def file_type_keys (files : List FileInfo) : Finset String :=
  (files.filterMap (fun f => extOf f.filename)).toFinset

/-- The `compressible_types` list of `MigrationEngine._estimate_compression`. -/
def compressible_types : List String :=
  ["txt", "csv", "json", "xml", "log", "html", "css", "js"]

/-- `MigrationEngine._estimate_compression`, applied to the `file_types`
dictionary of the given manifest: sums the dictionary's values and its
compressible entries, returns 0 for an empty dictionary, else
`ratio * 0.6 + (1 - ratio) * 0.1`. -/
def estimate_compression (files : List FileInfo) : ℚ :=
  let keys := file_type_keys files
  let dict_total : ℕ := ∑ e ∈ keys, file_types files e
  let total_compressible : ℕ :=
    ∑ e ∈ keys, if e ∈ compressible_types then file_types files e else 0
  if dict_total = 0 then 0
  else
    let compressible_ratio : ℚ := (total_compressible : ℚ) / (dict_total : ℚ)
    compressible_ratio * 0.6 + (1 - compressible_ratio) * 0.1

/-- The dictionary returned by `MigrationEngine._calculate_batch_size`: the
branch below 100MB returns keys `size`, `files`, `batches`; the other branch
returns keys `size_per_batch`, `files_per_batch`, `total_batches`,
`recommended_parallel_transfers`. -/
inductive BatchPlan where
  | singleBatch (size files : ℕ)
  | batched (size_per_batch files_per_batch total_batches parallel : ℕ)
deriving DecidableEq, Repr

/-- `MigrationEngine._calculate_batch_size`. -/
def calculate_batch_size (total_sz file_count : ℕ) : BatchPlan :=
  if total_sz < 1024 * 1024 * 100 then BatchPlan.singleBatch total_sz file_count
  else
    let batch_size :=
      if total_sz < 1024 * 1024 * 1024 then 1024 * 1024 * 100
      else if total_sz < 1024 * 1024 * 1024 * 10 then 1024 * 1024 * 500
      else 1024 * 1024 * 1024
    let batches := max 1 (total_sz / batch_size)
    let files_per_batch := max 1 (file_count / batches)
    BatchPlan.batched batch_size files_per_batch batches (min 5 batches)

/-- The number of batches carried by a plan (`batches` in the small branch,
`total_batches` in the other). -/
def BatchPlan.total_batch_count : BatchPlan → ℕ
  | BatchPlan.singleBatch _ _ => 1
  | BatchPlan.batched _ _ b _ => b

/-- The `recommended_parallel_transfers` entry of a plan; the small branch's
dictionary carries no such key, hence `none`. -/
def BatchPlan.parallel_transfers : BatchPlan → Option ℕ
  | BatchPlan.singleBatch _ _ => none
  | BatchPlan.batched _ _ _ p => some p

/-- Modelled from the spec: the batch-size step function of §4.3 (100MB under
1GB, 500MB under 10GB, 1GB above), used to compare the code's plan with the
spec's words. -/
def specBatchSize (total_bytes : ℕ) : ℕ :=
  if total_bytes < 1024 * 1024 * 1024 then 1024 * 1024 * 100
  else if total_bytes < 1024 * 1024 * 1024 * 10 then 1024 * 1024 * 500
  else 1024 * 1024 * 1024

/-- The fields of the dictionary returned by `MigrationEngine.analyze_files`
that the verified properties mention (the human-readable size strings and the
compressible-file list are omitted; the `file_types` dictionary is carried as
its key set plus its lookup function). -/
structure FileAnalysis where
  total_files : ℕ
  total_size : ℕ
  file_types : String → ℕ
  type_keys : Finset String
  largest_file : String × ℕ
  estimated_compression_ratio : ℚ
  recommended_batch_size : BatchPlan

/-- `MigrationEngine.analyze_files`. -/
def analyze_files (files : List FileInfo) : FileAnalysis :=
  { total_files := files.length
    total_size := manifest_total_size files
    file_types := file_types files
    type_keys := file_type_keys files
    largest_file :=
      files.foldl (fun best f => if f.size > best.2 then (f.filename, f.size) else best) ("", 0)
    estimated_compression_ratio := estimate_compression files
    recommended_batch_size := calculate_batch_size (manifest_total_size files) files.length }

/-! ### Job coordinator (`backend/app.py`, `backend/config.py`) -/

/-- Job statuses: the code assigns `initializing`, `in_progress`, `completed`
and `failed`; the spec additionally names `queued` and `cancelled`. -/
inductive JobStatus where
  | queued
  | initializing
  | in_progress
  | completed
  | failed
  | cancelled
deriving DecidableEq, Repr

/-- `Config.MAX_CONCURRENT_MIGRATIONS` default (`backend/config.py`, line 19). -/
def MAX_CONCURRENT_MIGRATIONS : ℕ := 5

/-- One migration-job record (the fields of the `migration_job` dictionary
that the verified properties mention; `created_at` is the `started_at`
timestamp). -/
structure MigJob where
  id : ℕ
  status : JobStatus
  progress : ℕ
  created_at : ℕ
deriving DecidableEq, Repr

/-- `start_migration` (`backend/app.py`): the new job is created with status
`initializing` and progress 0 and inserted into `active_migrations`,
unconditionally — the in-progress count is never consulted.  The state is the
dictionary's values in insertion order. -/
def start_migration (active : List MigJob) (new_id now : ℕ) : List MigJob :=
  active ++ [{ id := new_id, status := JobStatus.initializing, progress := 0, created_at := now }]

/-- The first step of `run_migration` (`backend/app.py`): the background
thread sets the job's status to `in_progress` and its progress to 10. -/
def run_migration_begin (active : List MigJob) (job_id : ℕ) : List MigJob :=
  active.map (fun j =>
    if j.id = job_id then { j with status := JobStatus.in_progress, progress := 10 } else j)

/-- The number of jobs currently holding `in_progress` status. -/
def count_in_progress (active : List MigJob) : ℕ :=
  (active.filter (fun j => decide (j.status = JobStatus.in_progress))).length

/-- `get_migrations` (`backend/app.py`): the active jobs followed by the log
entries, truncated by `migrations_list[:50]` to the first 50 records. -/
def get_migrations (active log_entries : List MigJob) : List MigJob :=
  (active ++ log_entries).take 50

/-- Lookup of a job by id in a job list (dictionary access by key). -/
def get_job (jobs : List MigJob) (job_id : ℕ) : Option MigJob :=
  jobs.find? (fun j => decide (j.id = job_id))

/-- The number of records in a listing that carry a given job id. -/
def count_id (jobs : List MigJob) (job_id : ℕ) : ℕ :=
  jobs.countP (fun j => decide (j.id = job_id))

/-- Whether a status is terminal (`completed`, `failed` or `cancelled`). -/
def JobStatus.isTerminal : JobStatus → Bool
  | JobStatus.completed => true
  | JobStatus.failed => true
  | JobStatus.cancelled => true
  | _ => false

/-- Result statuses of the cancellation operation named by the spec. -/
inductive CancelResult where
  | ok
  | notFound
  | alreadyTerminal
deriving DecidableEq, Repr

/-- Modelled from the spec: `cancel_job(job_id) -> ok | NotFound |
AlreadyTerminal` (§6, §7) — no cancellation operation exists anywhere in the
repository's code; per §7 an unknown id yields `NotFound`, a finished job
yields `AlreadyTerminal` as a no-op, and otherwise the job moves to
`cancelled` with its current progress preserved. -/
def cancel_job (active : List MigJob) (job_id : ℕ) : CancelResult × List MigJob :=
  match active.find? (fun j => decide (j.id = job_id)) with
  | none => (CancelResult.notFound, active)
  | some j =>
      if j.status.isTerminal then (CancelResult.alreadyTerminal, active)
      else
        (CancelResult.ok,
          active.map (fun k =>
            if k.id = job_id then { k with status := JobStatus.cancelled } else k))

/-! ### Concrete states used by the evaluations -/

/-- Five jobs submitted and begun: all five are `in_progress`. -/
def demo_busy : List MigJob :=
  (List.range 5).foldl (fun s i => run_migration_begin s i)
    ((List.range 5).foldl (fun s i => start_migration s i i) [])

/-- A sixth job submitted while five are `in_progress`, and its background
thread begun. -/
def demo_state : List MigJob :=
  run_migration_begin (start_migration demo_busy 5 5) 5

/-- An endpoint of type `local` — the type the storage checker itself treats
as a first-class device type, yet absent from the engine's supported set. -/
def local_endpoint : Endpoint :=
  { type := some "local", os := none, protocol := none,
    encryption := false, supports_encryption := false }

/-- A phone endpoint with declared OS and protocol. -/
def phone_endpoint : Endpoint :=
  { type := some "phone", os := some "android", protocol := some "mtp",
    encryption := false, supports_encryption := false }

/-- Endpoint A of the spec's scenario: 1000GB total, 350GB free (65% used). -/
def usage_A : DiskUsage :=
  { total := 1000 * 1073741824, used := 650 * 1073741824,
    free := 350 * 1073741824, percent := 65 }

/-- Endpoint B of the spec's scenario: 500GB total, 50GB free (90% used). -/
def usage_B : DiskUsage :=
  { total := 500 * 1073741824, used := 450 * 1073741824,
    free := 50 * 1073741824, percent := 90 }

/-- A migration log of 51 completed jobs with strictly increasing
`created_at` 0,…,50. -/
def demo_log : List MigJob :=
  (List.range 51).map (fun i =>
    { id := i, status := JobStatus.completed, progress := 100, created_at := i })

/-- A job that completed recently: present in the active set (eviction
pending) and in the migration log. -/
def c10_job : MigJob :=
  { id := 99, status := JobStatus.completed, progress := 100, created_at := 60 }

/-- An active set of 50 failed jobs (the failure path of `run_migration`
never evicts) followed by the recently completed job. -/
def c10_active : List MigJob :=
  ((List.range 50).map (fun i =>
    { id := i, status := JobStatus.failed, progress := 50, created_at := i })) ++ [c10_job]

/-- The corresponding migration log: the 50 failed jobs were logged on
failure, the completed one on completion. -/
def c10_log : List MigJob :=
  ((List.range 50).map (fun i =>
    { id := i, status := JobStatus.failed, progress := 50, created_at := i })) ++ [c10_job]

/-- A queued job used to witness cancellation. -/
def w_job : MigJob :=
  { id := 1, status := JobStatus.queued, progress := 0, created_at := 0 }

/-! ### Helper lemmas -/

/-- The status computed by `check_capacity`, written as one if-chain over the
query result's fields. -/
theorem check_capacity_status_eq (u : DiskUsage) (r : ℚ) :
    (check_capacity u r).status =
      (if 95/100 ≤ u.percent / 100 then CapStatus.critical
       else if 85/100 ≤ u.percent / 100 then CapStatus.warning
       else if u.free < r then CapStatus.insufficient
       else if u.free - r < u.total * (1/10) then CapStatus.marginal
       else CapStatus.healthy) := by
  simp only [check_capacity, threshold_critical, threshold_warning, ge_iff_le,
    decide_eq_false_iff_not, not_le]
  norm_num

/-- A database type is in the supported set (`databases` is a sublist of
`devices + databases`). -/
theorem supported_of_is_database (t : Option String) (h : is_database t = true) :
    supported_type t = true := by
  cases t with
  | none => simp [is_database] at h
  | some s =>
    simp only [is_database, decide_eq_true_eq] at h
    simp only [supported_type, decide_eq_true_eq, List.mem_append]
    exact Or.inr h

/-- Finding a job by id commutes with the cancellation update of
`cancel_job` (the update preserves ids). -/
theorem find_map_cancel (l : List MigJob) (i : ℕ) :
    (l.map (fun k =>
        if k.id = i then { k with status := JobStatus.cancelled } else k)).find?
      (fun j => decide (j.id = i)) =
    (l.find? (fun j => decide (j.id = i))).map
      (fun k => { k with status := JobStatus.cancelled }) := by
  induction l with
  | nil => rfl
  | cons x xs ih =>
    by_cases hx : x.id = i
    · simp [List.find?_cons, hx]
    · simp [List.find?_cons, hx, ih]

/-- The per-file dictionary update of `analyze_files` is commutative. -/
theorem add_file_type_comm (m : String → ℕ) (f g : FileInfo) :
    add_file_type (add_file_type m f) g = add_file_type (add_file_type m g) f := by
  cases hf : extOf f.filename with
  | none => simp [add_file_type, hf]
  | some e1 =>
    cases hg : extOf g.filename with
    | none => simp [add_file_type, hf, hg]
    | some e2 =>
      funext x
      simp only [add_file_type, hf, hg]
      split_ifs <;> omega

/-- Permuting the manifest leaves the `file_types` dictionary unchanged. -/
theorem file_types_perm {l₁ l₂ : List FileInfo} (h : l₁.Perm l₂) :
    file_types l₁ = file_types l₂ :=
  h.foldl_eq' (fun x _ y _ z => add_file_type_comm z x y) (fun _ => 0)

/-- Permuting the manifest leaves the dictionary's key set unchanged. -/
theorem file_type_keys_perm {l₁ l₂ : List FileInfo} (h : l₁.Perm l₂) :
    file_type_keys l₁ = file_type_keys l₂ := by
  apply Finset.ext
  intro a
  simp only [file_type_keys, List.mem_toFinset]
  exact (h.filterMap _).mem_iff

/-- Permuting the manifest leaves the accumulated total size unchanged. -/
theorem manifest_total_size_perm {l₁ l₂ : List FileInfo} (h : l₁.Perm l₂) :
    manifest_total_size l₁ = manifest_total_size l₂ :=
  (h.map FileInfo.size).sum_eq

/-- Permuting the manifest leaves the compression estimate unchanged. -/
theorem estimate_compression_perm {l₁ l₂ : List FileInfo} (h : l₁.Perm l₂) :
    estimate_compression l₁ = estimate_compression l₂ := by
  unfold estimate_compression
  rw [file_types_perm h, file_type_keys_perm h]

/-! ### Claim theorems -/

/-- Claim C2: for every endpoint whose storage query succeeds,
`check_capacity` assigns the status by the exact priority order critical
(percent_used ≥ 0.95), warning (≥ 0.85), insufficient (free < required),
marginal (free − required < total·0.10), healthy; in particular every input
with percent_used in [0, 0.85), free ≥ required and the 10% margin satisfied
is healthy. -/
theorem check_capacity_priority_order :
    (∀ (u : DiskUsage) (r : ℚ),
      (check_capacity u r).status = statusSpec (u.percent / 100) u.free r u.total) ∧
    (∀ (u : DiskUsage) (r : ℚ),
      0 ≤ u.percent / 100 → u.percent / 100 < 0.85 → r ≤ u.free →
      u.free - r ≥ u.total * 0.10 →
      (check_capacity u r).status = CapStatus.healthy) := by
  constructor
  · intro u r
    rw [check_capacity_status_eq]
    simp only [statusSpec, ge_iff_le]
    norm_num
  · intro u r h0 h85 hfit hmargin
    rw [check_capacity_status_eq]
    norm_num at h85 hmargin
    rw [if_neg (by push_neg; linarith), if_neg (by push_neg; linarith),
      if_neg (by push_neg; linarith), if_neg (by push_neg; linarith)]

/-- Witness for C2: a half-full 100-byte device with 50 bytes free and a
10-byte request is healthy. -/
theorem check_capacity_priority_order_witness :
    (check_capacity ⟨100, 50, 50, 50⟩ 10).status = CapStatus.healthy :=
  check_capacity_priority_order.2 ⟨100, 50, 50, 50⟩ 10 (by norm_num) (by norm_num)
    (by norm_num) (by norm_num)

/-- Counterexample to C4: on the spec scenario's destination (500GB total,
50GB free, 60GB requested) the status is not `insufficient` — the 90% usage
crosses the 0.85 warning threshold, which has priority. -/
theorem scenario_dest_not_insufficient :
    (check_capacity usage_B (60 * 1073741824)).status ≠ CapStatus.insufficient := by
  rw [check_capacity_status_eq]
  norm_num [usage_B]
  decide

/-- Claim C4 (amended): on the scenario's destination the status is
`warning` (percent_used = 0.90 ≥ 0.85 takes priority over the insufficient
check), `fits = false`, and comparing any source whatsoever against this
destination yields `can_migrate = false`. -/
theorem scenario_dest_warning :
    (check_capacity usage_B (60 * 1073741824)).status = CapStatus.warning ∧
    (check_capacity usage_B (60 * 1073741824)).fits = false ∧
    (∀ source_usage : DiskUsage,
      (compare_storage source_usage usage_B (60 * 1073741824)).can_migrate = false) := by
  refine ⟨?_, ?_, fun source_usage => ?_⟩
  · rw [check_capacity_status_eq]
    norm_num [usage_B]
  · simp only [check_capacity, usage_B, ge_iff_le, decide_eq_false_iff_not, not_le]
    norm_num
  · simp only [compare_storage, check_capacity, usage_B, ge_iff_le,
      decide_eq_false_iff_not, not_le]
    norm_num

/-- Claim C5: with free space tied to utilisation (`free = total − used`,
`used = p·total`), increasing `percent_used` never decreases the severity of
the status returned by `check_capacity`, under the order healthy < marginal <
insufficient < warning < critical. -/
theorem check_capacity_severity_monotone (t r p₁ p₂ : ℚ) (ht : 0 ≤ t) (hp : p₁ ≤ p₂) :
    severity (check_capacity (usageAt t p₁) r).status ≤
      severity (check_capacity (usageAt t p₂) r).status := by
  rw [check_capacity_status_eq, check_capacity_status_eq]
  simp only [usageAt]
  have hq : ∀ p : ℚ, p * 100 / 100 = p := fun p => by
    rw [mul_div_assoc]; norm_num
  rw [hq, hq]
  have hmul : p₁ * t ≤ p₂ * t := mul_le_mul_of_nonneg_right hp ht
  split_ifs <;> simp only [severity] <;> first | omega | (exfalso; linarith)

/-- Witness for C5: utilisation 1/2 versus 9/10 on a 100-byte device with a
10-byte request. -/
theorem check_capacity_severity_monotone_witness :
    severity (check_capacity (usageAt 100 (1/2)) 10).status ≤
      severity (check_capacity (usageAt 100 (9/10)) 10).status :=
  check_capacity_severity_monotone 100 10 (1/2) (9/10) (by norm_num) (by norm_num)

/-- Counterexample to C3: two identical endpoints of type `local` — the type
the storage checker treats as a device type, yet outside the engine's
supported set — score 40, not 100, and are reported incompatible. -/
theorem identical_local_endpoints_score_40 :
    (check_compatibility local_endpoint local_endpoint).score ≠ 100 ∧
    (check_compatibility local_endpoint local_endpoint).score = 40 ∧
    (check_compatibility local_endpoint local_endpoint).compatible = false := by
  decide

/-- Claim C3 (amended): every compatibility score lies in [0, 100], and every
pair of identical endpoints (same kind, same OS, same protocol) whose kind is
inside the supported set scores exactly 100 and is reported compatible. -/
theorem check_compatibility_score_bounds :
    (∀ source destination : Endpoint,
      0 ≤ (check_compatibility source destination).score ∧
      (check_compatibility source destination).score ≤ 100) ∧
    (∀ source destination : Endpoint,
      source.type = destination.type → source.os = destination.os →
      source.protocol = destination.protocol → supported_type source.type = true →
      (check_compatibility source destination).score = 100 ∧
      (check_compatibility source destination).compatible = true) := by
  constructor
  · intro s d
    have hsc : (check_compatibility s d).score = compatibility_score s d := rfl
    rw [hsc]
    have key_s := supported_of_is_database s.type
    have key_d := supported_of_is_database d.type
    unfold compatibility_score
    split_ifs <;> first | omega | simp_all
  · intro s d ht hos hp hsup
    have hsup' : supported_type d.type = true := ht ▸ hsup
    have h100 : compatibility_score s d = 100 := by
      unfold compatibility_score
      rw [ht, hos, hp]
      simp [hsup']
    have hsc : (check_compatibility s d).score = compatibility_score s d := rfl
    have hcm : (check_compatibility s d).compatible =
        decide (compatibility_score s d ≥ 70) := rfl
    rw [hsc, hcm, h100]
    exact ⟨rfl, by decide⟩

/-- Witness for C3: identical phone endpoints with declared OS and protocol
score 100 and are compatible. -/
theorem check_compatibility_score_bounds_witness :
    (check_compatibility phone_endpoint phone_endpoint).score = 100 ∧
    (check_compatibility phone_endpoint phone_endpoint).compatible = true :=
  check_compatibility_score_bounds.2 phone_endpoint phone_endpoint rfl rfl rfl (by decide)

/-- Counterexample to C7: for a 50MB manifest of 3 files the returned plan is
the single-batch dictionary, which carries no `recommended_parallel_transfers`
entry at all, so the plan does not satisfy
`max_parallel_transfers = min(5, total_batches)`. -/
theorem small_plan_lacks_parallel_field :
    (calculate_batch_size 52428800 3).parallel_transfers ≠
      some (min 5 (calculate_batch_size 52428800 3).total_batch_count) ∧
    (calculate_batch_size 52428800 3).parallel_transfers = none ∧
    (calculate_batch_size 52428800 3).total_batch_count = 1 := by
  decide

/-- Claim C7 (amended): every plan has at least one batch; for a manifest
below 100MB the plan is the single-batch dictionary (total size, file count,
one batch, no parallel-transfer field); otherwise the batch size steps
through 100MB, 500MB, 1GB at the 1GB and 10GB thresholds,
`total_batches = max(1, total_bytes div batch_size)`,
`files_per_batch = max(1, file_count div total_batches)` and
`max_parallel_transfers = min(5, total_batches)`. -/
theorem calculate_batch_size_plan (total_sz file_count : ℕ) :
    1 ≤ (calculate_batch_size total_sz file_count).total_batch_count ∧
    (total_sz < 1024 * 1024 * 100 →
      calculate_batch_size total_sz file_count =
        BatchPlan.singleBatch total_sz file_count) ∧
    (1024 * 1024 * 100 ≤ total_sz →
      calculate_batch_size total_sz file_count =
        BatchPlan.batched (specBatchSize total_sz)
          (max 1 (file_count / max 1 (total_sz / specBatchSize total_sz)))
          (max 1 (total_sz / specBatchSize total_sz))
          (min 5 (max 1 (total_sz / specBatchSize total_sz)))) := by
  refine ⟨?_, fun h => ?_, fun h => ?_⟩
  · simp only [calculate_batch_size]
    split_ifs <;> simp [BatchPlan.total_batch_count]
  · simp [calculate_batch_size, h]
  · have h' : ¬ total_sz < 1024 * 1024 * 100 := by omega
    simp only [calculate_batch_size, specBatchSize, h', if_false]

/-- Witness for C7: the empty manifest yields the single-batch plan, and a
200MB manifest of 7 files yields 100MB batches, 2 batches, 3 files per batch,
2 parallel transfers. -/
theorem calculate_batch_size_plan_witness :
    calculate_batch_size 0 3 = BatchPlan.singleBatch 0 3 ∧
    calculate_batch_size 209715200 7 =
      BatchPlan.batched (specBatchSize 209715200)
        (max 1 (7 / max 1 (209715200 / specBatchSize 209715200)))
        (max 1 (209715200 / specBatchSize 209715200))
        (min 5 (max 1 (209715200 / specBatchSize 209715200))) :=
  ⟨(calculate_batch_size_plan 0 3).2.1 (by decide),
   (calculate_batch_size_plan 209715200 7).2.2 (by decide)⟩

/-- Claim C1 evaluated on the code: `start_migration` never consults the
in-progress count — with five jobs already `in_progress` (the configured
`MAX_CONCURRENT_MIGRATIONS`), a sixth submission still enters status
`initializing` (never `queued`), and once its thread begins, six jobs hold
`in_progress` simultaneously. -/
theorem start_migration_ignores_cap :
    MAX_CONCURRENT_MIGRATIONS = 5 ∧
    count_in_progress demo_busy = MAX_CONCURRENT_MIGRATIONS ∧
    (start_migration demo_busy 5 5).getLast?.map MigJob.status =
      some JobStatus.initializing ∧
    count_in_progress demo_state = 6 := by
  decide

/-- Claim C9 evaluated on the code: with 51 logged jobs of increasing
`created_at`, `get_migrations` returns 50 records none of which is the most
recent job (`created_at = 50`) — it takes the first 50 of actives-then-log
instead of the most recent by `created_at` descending. -/
theorem get_migrations_first_fifty_unsorted :
    (∃ j ∈ demo_log, j.created_at = 50) ∧
    (∀ j ∈ get_migrations [] demo_log, j.created_at < 50) ∧
    (get_migrations [] demo_log).length = 50 := by
  decide

/-- Counterexample to C10: a job that completed recently and sits in both the
active set and the log can appear zero times in the listing — with 50 failed
jobs ahead of it, the 50-record truncation drops both of its copies. -/
theorem completed_job_absent_from_listing :
    c10_job ∈ c10_active ∧ c10_job ∈ c10_log ∧
    c10_job.status = JobStatus.completed ∧
    count_id (get_migrations c10_active c10_log) c10_job.id = 0 := by
  decide

/-- Claim C10 (amended): whenever a job is present in the active set and a
record with its id is present in the migration log — as holds for a job
completed less than an hour ago — and the combined listing is within the
50-record truncation, `get_migrations` returns at least two records carrying
that job's id. -/
theorem get_migrations_duplicate_ids (active log_entries : List MigJob)
    (j j2 : MigJob) (ha : j ∈ active) (hl : j2 ∈ log_entries)
    (hid : j2.id = j.id) (hlen : (active ++ log_entries).length ≤ 50) :
    2 ≤ count_id (get_migrations active log_entries) j.id := by
  unfold get_migrations count_id
  rw [List.take_of_length_le hlen, List.countP_append]
  have h1 : 0 < active.countP (fun k => decide (k.id = j.id)) :=
    List.countP_pos_iff.mpr ⟨j, ha, by simp⟩
  have h2 : 0 < log_entries.countP (fun k => decide (k.id = j.id)) :=
    List.countP_pos_iff.mpr ⟨j2, hl, by simp [hid]⟩
  omega

/-- Witness for C10: a one-job active set and a one-record log with the same
id produce a listing whose id count is 2. -/
theorem get_migrations_duplicate_ids_witness :
    2 ≤ count_id (get_migrations [c10_job] [c10_job]) c10_job.id :=
  get_migrations_duplicate_ids [c10_job] [c10_job] c10_job c10_job
    (by decide) (by decide) rfl (by decide)

/-- Claim C6: the cancellation operation returns `notFound` for an unknown
id, `alreadyTerminal` as a no-op for a finished job, and otherwise returns
`ok` and moves the job — in particular a `queued` job — to `cancelled`,
recording no progress beyond what the record already carried. -/
theorem cancel_job_spec (active : List MigJob) (job_id : ℕ) :
    (get_job active job_id = none →
      cancel_job active job_id = (CancelResult.notFound, active)) ∧
    (∀ j, get_job active job_id = some j → j.status.isTerminal = true →
      cancel_job active job_id = (CancelResult.alreadyTerminal, active)) ∧
    (∀ j, get_job active job_id = some j → j.status.isTerminal = false →
      (cancel_job active job_id).1 = CancelResult.ok ∧
      get_job (cancel_job active job_id).2 job_id =
        some { j with status := JobStatus.cancelled }) ∧
    (∀ j, get_job active job_id = some j → j.status = JobStatus.queued →
      (cancel_job active job_id).1 = CancelResult.ok ∧
      get_job (cancel_job active job_id).2 job_id =
        some { j with status := JobStatus.cancelled }) := by
  refine ⟨fun h => ?_, fun j hj ht => ?_, fun j hj ht => ?_, fun j hj hq => ?_⟩
  · unfold get_job at h
    unfold cancel_job
    rw [h]
  · unfold get_job at hj
    unfold cancel_job
    rw [hj]
    simp [ht]
  · unfold get_job at hj
    have hid : j.id = job_id := by
      have := List.find?_some hj
      simpa using this
    have hc : cancel_job active job_id =
        (CancelResult.ok, active.map (fun k =>
          if k.id = job_id then { k with status := JobStatus.cancelled } else k)) := by
      unfold cancel_job
      rw [hj]
      dsimp only
      rw [if_neg (by simp [ht])]
    rw [hc]
    refine ⟨rfl, ?_⟩
    unfold get_job
    rw [find_map_cancel, hj]
    simp [hid]
  · have ht : j.status.isTerminal = false := by rw [hq]; rfl
    unfold get_job at hj
    have hid : j.id = job_id := by
      have := List.find?_some hj
      simpa using this
    have hc : cancel_job active job_id =
        (CancelResult.ok, active.map (fun k =>
          if k.id = job_id then { k with status := JobStatus.cancelled } else k)) := by
      unfold cancel_job
      rw [hj]
      dsimp only
      rw [if_neg (by simp [ht])]
    rw [hc]
    refine ⟨rfl, ?_⟩
    unfold get_job
    rw [find_map_cancel, hj]
    simp [hid]

/-- Witness for C6: cancelling the queued job of id 1 in a one-job store
returns `ok` and leaves the job `cancelled` with progress 0. -/
theorem cancel_job_spec_witness :
    (cancel_job [w_job] 1).1 = CancelResult.ok ∧
    get_job (cancel_job [w_job] 1).2 1 =
      some { w_job with status := JobStatus.cancelled } :=
  (cancel_job_spec [w_job] 1).2.2.2 w_job (by decide) (by decide)

/-- Claim C8: file-set analysis is order-independent — permuting the manifest
yields identical total size, identical `file_types` histogram (key set and
per-extension totals) and identical estimated compression ratio. -/
theorem analyze_files_order_independent (l₁ l₂ : List FileInfo) (h : l₁.Perm l₂) :
    (analyze_files l₁).total_size = (analyze_files l₂).total_size ∧
    (analyze_files l₁).file_types = (analyze_files l₂).file_types ∧
    (analyze_files l₁).type_keys = (analyze_files l₂).type_keys ∧
    (analyze_files l₁).estimated_compression_ratio =
      (analyze_files l₂).estimated_compression_ratio := by
  exact ⟨manifest_total_size_perm h, file_types_perm h, file_type_keys_perm h,
    estimate_compression_perm h⟩

/-- Witness for C8: swapping a two-file manifest leaves the analysed total
size, histogram and compression ratio unchanged. -/
theorem analyze_files_order_independent_witness :
    (analyze_files [⟨"a.txt", 10⟩, ⟨"b.jpg", 90⟩]).total_size =
      (analyze_files [⟨"b.jpg", 90⟩, ⟨"a.txt", 10⟩]).total_size ∧
    (analyze_files [⟨"a.txt", 10⟩, ⟨"b.jpg", 90⟩]).estimated_compression_ratio =
      (analyze_files [⟨"b.jpg", 90⟩, ⟨"a.txt", 10⟩]).estimated_compression_ratio :=
  ⟨(analyze_files_order_independent _ _ (List.Perm.swap _ _ _)).1,
   (analyze_files_order_independent _ _ (List.Perm.swap _ _ _)).2.2.2⟩

end DataMigration
